import Mathlib

/-!
# Verification of the `flux_trainer` API client (`src/flux_trainer/api.py`)

A shallow embedding of the `FluxAPI` client: JSON values, HTTP
request/response shapes, the shared `_make_request` helper, and the public
operations `request_finetuning`, `get_progress`, `get_finetune_details` and
`generate_image` with its bounded polling loop.

JSON decoding is performed by the `requests` library, outside the client
code, so the transport environment supplies, for each HTTP exchange, the
final response's status code, raw text, and the outcome of `json.loads`
on that text.  Python-specific semantics are modelled explicitly:
truthiness, `dict.get`, `or`, the `in` operator, and the fact that `.get`
on a non-dict raises `AttributeError` while `in` on numbers or `None`
raises `TypeError`; either escapes the client as a non-`FluxAPIError`
exception unless a handler converts it.
-/

/-- A JSON value, the shape of decoded request/response bodies.  Numbers are
modelled as rationals: the client never computes with them, it only passes
them through, so any exact representation of the wire value is adequate. -/
inductive JSON where
  | null : JSON
  | bool (b : Bool) : JSON
  | num (q : ℚ) : JSON
  | str (s : String) : JSON
  | arr (xs : List JSON) : JSON
  | obj (fields : List (String × JSON)) : JSON

mutual

/-- Boolean equality on JSON values (structural). -/
def JSON.beq : JSON → JSON → Bool
  | .null, .null => true
  | .bool a, .bool b => a == b
  | .num a, .num b => a == b
  | .str a, .str b => a == b
  | .arr xs, .arr ys => JSON.beqList xs ys
  | .obj fs, .obj gs => JSON.beqFields fs gs
  | _, _ => false

/-- Boolean equality on lists of JSON values. -/
def JSON.beqList : List JSON → List JSON → Bool
  | [], [] => true
  | x :: xs, y :: ys => JSON.beq x y && JSON.beqList xs ys
  | _, _ => false

/-- Boolean equality on JSON object field lists. -/
def JSON.beqFields : List (String × JSON) → List (String × JSON) → Bool
  | [], [] => true
  | (k, v) :: fs, (k2, v2) :: gs =>
    k == k2 && JSON.beq v v2 && JSON.beqFields fs gs
  | _, _ => false

end

mutual

theorem JSON.beq_iff : ∀ a b : JSON, JSON.beq a b = true ↔ a = b
  | .null, .null => by simp [JSON.beq]
  | .null, .bool _ => by simp [JSON.beq]
  | .null, .num _ => by simp [JSON.beq]
  | .null, .str _ => by simp [JSON.beq]
  | .null, .arr _ => by simp [JSON.beq]
  | .null, .obj _ => by simp [JSON.beq]
  | .bool _, .null => by simp [JSON.beq]
  | .bool _, .bool _ => by simp [JSON.beq]
  | .bool _, .num _ => by simp [JSON.beq]
  | .bool _, .str _ => by simp [JSON.beq]
  | .bool _, .arr _ => by simp [JSON.beq]
  | .bool _, .obj _ => by simp [JSON.beq]
  | .num _, .null => by simp [JSON.beq]
  | .num _, .bool _ => by simp [JSON.beq]
  | .num _, .num _ => by simp [JSON.beq]
  | .num _, .str _ => by simp [JSON.beq]
  | .num _, .arr _ => by simp [JSON.beq]
  | .num _, .obj _ => by simp [JSON.beq]
  | .str _, .null => by simp [JSON.beq]
  | .str _, .bool _ => by simp [JSON.beq]
  | .str _, .num _ => by simp [JSON.beq]
  | .str _, .str _ => by simp [JSON.beq]
  | .str _, .arr _ => by simp [JSON.beq]
  | .str _, .obj _ => by simp [JSON.beq]
  | .arr _, .null => by simp [JSON.beq]
  | .arr _, .bool _ => by simp [JSON.beq]
  | .arr _, .num _ => by simp [JSON.beq]
  | .arr _, .str _ => by simp [JSON.beq]
  | .arr xs, .arr ys => by simp [JSON.beq, JSON.beqList_iff xs ys]
  | .arr _, .obj _ => by simp [JSON.beq]
  | .obj _, .null => by simp [JSON.beq]
  | .obj _, .bool _ => by simp [JSON.beq]
  | .obj _, .num _ => by simp [JSON.beq]
  | .obj _, .str _ => by simp [JSON.beq]
  | .obj _, .arr _ => by simp [JSON.beq]
  | .obj fs, .obj gs => by simp [JSON.beq, JSON.beqFields_iff fs gs]

theorem JSON.beqList_iff : ∀ xs ys : List JSON, JSON.beqList xs ys = true ↔ xs = ys
  | [], [] => by simp [JSON.beqList]
  | [], _ :: _ => by simp [JSON.beqList]
  | _ :: _, [] => by simp [JSON.beqList]
  | x :: xs, y :: ys => by
      simp [JSON.beqList, JSON.beq_iff x y, JSON.beqList_iff xs ys]

theorem JSON.beqFields_iff :
    ∀ fs gs : List (String × JSON), JSON.beqFields fs gs = true ↔ fs = gs
  | [], [] => by simp [JSON.beqFields]
  | [], _ :: _ => by simp [JSON.beqFields]
  | _ :: _, [] => by simp [JSON.beqFields]
  | (k, v) :: fs, (k2, v2) :: gs => by
      simp [JSON.beqFields, JSON.beq_iff v v2, JSON.beqFields_iff fs gs,
        Prod.ext_iff]

end

instance : DecidableEq JSON := fun a b =>
  decidable_of_iff (JSON.beq a b = true) (JSON.beq_iff a b)

/-- Python truthiness of a JSON value: `None`, `False`, `0`, the empty
string, the empty list and the empty dict are falsy, all else truthy. -/
def JSON.truthy : JSON → Bool
  | .null => false
  | .bool b => b
  | .num q => q ≠ 0
  | .str s => s ≠ ""
  | .arr xs => !xs.isEmpty
  | .obj fs => !fs.isEmpty

/-- Is this value a Python `dict` (JSON object)? -/
def JSON.isObj : JSON → Bool
  | .obj _ => true
  | _ => false

/-- Is this value a Python `str`? -/
def JSON.isStr : JSON → Bool
  | .str _ => true
  | _ => false

/-- `d.get(k)` on a Python dict: `None` (here `none`) when the key is
absent.  Python dict keys are unique; lookup takes the first occurrence. -/
def dictGet (fs : List (String × JSON)) (k : String) : Option JSON :=
  match fs with
  | [] => none
  | (k2, v) :: rest => if k2 = k then some v else dictGet rest k

/-- `d[k] = v` on a Python dict: replace the value at `k` if the key is
present, otherwise append the new binding. -/
def dictSet (fs : List (String × JSON)) (k : String) (v : JSON) :
    List (String × JSON) :=
  match fs with
  | [] => [(k, v)]
  | (k2, w) :: rest =>
    if k2 = k then (k2, v) :: rest else (k2, w) :: dictSet rest k v

/-- Python `a or b` applied to two lookup results: the first operand when
truthy, otherwise the second operand unchanged (possibly `None`/falsy). -/
def pyOr (a b : Option JSON) : Option JSON :=
  match a with
  | some v => if v.truthy then some v else b
  | none => b

/-- Truthiness of a lookup result, where `None` is falsy. -/
def optTruthy : Option JSON → Bool
  | some v => v.truthy
  | none => false

/-- Does the character list `hay` start with the character list `needle`? -/
def charsStartWith : List Char → List Char → Bool
  | [], _ => true
  | _ :: _, [] => false
  | a :: as, b :: bs => a == b && charsStartWith as bs

/-- Does `hay` contain `needle` as a contiguous substring (Python
`needle in hay` on strings)? -/
def charsContain (needle : List Char) : List Char → Bool
  | [] => charsStartWith needle []
  | c :: rest => charsStartWith needle (c :: rest) || charsContain needle rest

/-- Python `needle in hay` testing a string against a JSON value: key
membership for dicts, substring for strings, element membership for lists;
`TypeError` (modelled as `Except.error`) for the remaining shapes. -/
def pyContains (needle : String) (hay : JSON) : Except Unit Bool :=
  match hay with
  | .obj fs => .ok (fs.any (fun p => p.1 = needle))
  | .str s => .ok (charsContain needle.toList s.toList)
  | .arr xs => .ok (xs.any (fun x =>
      match x with
      | .str t => t = needle
      | _ => false))
  | _ => .error ()

/-- The final HTTP response of one exchange, as seen by the client:
`status_code` and raw `text` from `requests.Response`, and `decoded`, the
outcome the environment assigns to `json.loads` on that text (`none` means
the text is not valid JSON, so `response.json()` raises). -/
structure HTTPResponse where
  status_code : Nat
  text : String
  decoded : Option JSON
deriving DecidableEq

/-- `requests.Response.ok`: true exactly when the status code is below
400 (this is the library's definition; it is wider than the 2xx range). -/
def HTTPResponse.ok (r : HTTPResponse) : Bool := r.status_code < 400

/-- A transport-level failure: `requests.exceptions.RequestException`, with
its message and the response attached to the exception when one exists. -/
structure RequestException where
  msg : String
  response : Option HTTPResponse
deriving DecidableEq

/-- Outcome of one call to `requests.request`: either a raised
`RequestException` or a delivered final response. -/
inductive TransportResult where
  | exc (e : RequestException) : TransportResult
  | resp (r : HTTPResponse) : TransportResult
deriving DecidableEq

/-- An HTTP request issued by the client: method, endpoint path below the
base URL, optional JSON body (the `json=` kwarg) and query parameters
(the `params=` kwarg). -/
structure HTTPRequest where
  method : String
  endpoint : String
  jsonBody : Option JSON
  params : List (String × String)
deriving DecidableEq

/-- The `FluxAPIError` raise sites of `api.py`, one constructor per site,
each carrying the data interpolated into that site's message / attached as
`.response`.  The spec's error taxonomy maps onto these as follows:
`RequestFailed` = `invalidJSON`, `apiError`, `requestFailed`;
`InvalidResponse` = `invalidResponseType`, `noFinetuneId`, `noInferenceId`,
`invalidResultFormat`; `GenerationFailed` = `generationFailed`;
`Timeout` = `timedOut`. -/
inductive FluxError where
  | invalidJSON (resp : HTTPResponse) : FluxError
  | apiError (errorMsg : JSON) (resp : HTTPResponse) : FluxError
  | requestFailed (e : RequestException) : FluxError
  | invalidResponseType (body : JSON) : FluxError
  | noFinetuneId (body : JSON) : FluxError
  | failedToStart : FluxError
  | noInferenceId (body : JSON) : FluxError
  | invalidResultFormat (body : JSON) : FluxError
  | generationFailed (detail : JSON) : FluxError
  | timedOut : FluxError
  | failedToGenerate : FluxError
deriving DecidableEq

/-- An exception escaping a client method: either a `FluxAPIError` (one of
the constructors above) or a non-`FluxAPIError` Python exception such as
the `AttributeError` from calling `.get` on a non-dict or the `TypeError`
from `in` on an unsupported type. -/
inductive PyErr where
  | flux (e : FluxError) : PyErr
  | exc : PyErr
deriving DecidableEq

/-- Membership of an error in the spec's `RequestFailed` family: the three
raise sites inside `_make_request`. -/
def isRequestFailed : PyErr → Bool
  | .flux (.invalidJSON _) => true
  | .flux (.apiError _ _) => true
  | .flux (.requestFailed _) => true
  | _ => false

/-- `response_json.get('error', \x7b\x7d).get('message', response.text)` of
`_make_request`: extraction of the error message from a decoded error body.
`.get` on a non-dict (a non-object body, or an `error` field holding a
non-object) raises `AttributeError`, modelled as `Except.error`. -/
def extractErrMsg (body : JSON) (text : String) : Except Unit JSON :=
  match body with
  | .obj fs =>
    match dictGet fs "error" with
    | none => .ok (.str text)
    | some (.obj efs) =>
      match dictGet efs "message" with
      | none => .ok (.str text)
      | some m => .ok m
    | some _ => .error ()
  | _ => .error ()

/-- `FluxAPI._make_request` (api.py lines 43-104) applied to the outcome of
its single `requests.request` call.  A raised `RequestException` maps to the
`Request failed` raise; otherwise the body is decoded (empty text becomes
the empty dict, undecodable text raises `Invalid JSON response`), and a
not-`ok` status raises `API error` with the message extracted from the
body — where that extraction itself can raise `AttributeError`. -/
def make_request (t : TransportResult) : Except PyErr JSON :=
  match t with
  | .exc e => .error (.flux (.requestFailed e))
  | .resp r =>
    match (if r.text = "" then some (JSON.obj []) else r.decoded) with
    | none => .error (.flux (.invalidJSON r))
    | some j =>
      if r.ok then .ok j
      else
        match extractErrMsg j r.text with
        | .ok m => .error (.flux (.apiError m r))
        | .error _ => .error .exc

/-- Result of `FluxAPI.__init__`: the stored key or the raised
`ValueError` (the spec's `ConfigurationError`). -/
inductive InitResult where
  | ok (api_key : String) : InitResult
  | configError : InitResult
deriving DecidableEq

/-- `FluxAPI.__init__` (api.py lines 32-41): the stored key is
`api_key or os.getenv("BFL_API_KEY")` (the argument when truthy, else the
environment value, which is `none` when the variable is unset); a falsy
stored key raises `ValueError`.  No network call occurs: the function is
a pure check of its two inputs. -/
def FluxAPI.init (api_key : Option String) (env_key : Option String) :
    InitResult :=
  let stored : Option String :=
    match api_key with
    | some s => if s = "" then env_key else some s
    | none => env_key
  match stored with
  | some s => if s = "" then .configError else .ok s
  | none => .configError

/-- The ten-field request body built by `request_finetuning`
(api.py lines 142-153), in source order. -/
structure FinetuneArgs where
  file_data : String
  finetune_comment : String
  trigger_word : String
  mode : String
  iterations : ℚ
  learning_rate : ℚ
  captioning : Bool
  priority : String
  finetune_type : String
  lora_rank : ℚ
deriving DecidableEq

/-- The field list of the `payload` dict literal of `request_finetuning`,
in the order the source writes it. -/
def finetunePayloadFields (a : FinetuneArgs) : List (String × JSON) :=
  [("finetune_comment", .str a.finetune_comment),
   ("trigger_word", .str a.trigger_word),
   ("file_data", .str a.file_data),
   ("iterations", .num a.iterations),
   ("mode", .str a.mode),
   ("learning_rate", .num a.learning_rate),
   ("captioning", .bool a.captioning),
   ("priority", .str a.priority),
   ("lora_rank", .num a.lora_rank),
   ("finetune_type", .str a.finetune_type)]

/-- The `payload` dict of `request_finetuning`. -/
def finetunePayload (a : FinetuneArgs) : JSON :=
  .obj (finetunePayloadFields a)

/-- `FluxAPI.request_finetuning` (api.py lines 106-177): the list of HTTP
requests it issues (always the single `POST finetune` carrying the payload)
paired with its outcome on the supplied transport result.  A non-dict body
raises `Invalid response type`; `response.get('id') or
response.get('finetune_id')` being falsy raises `No finetune ID`; otherwise
the response is returned with the id normalized onto the `id` field.
`FluxAPIError` is re-raised unchanged; any other exception is converted to
the `Failed to start finetuning job` raise by the catch-all handler. -/
def request_finetuning (a : FinetuneArgs) (t : TransportResult) :
    List HTTPRequest × Except PyErr JSON :=
  let req : HTTPRequest := ⟨"POST", "finetune", some (finetunePayload a), []⟩
  let result : Except PyErr JSON :=
    match make_request t with
    | .error (.flux e) => .error (.flux e)
    | .error .exc => .error (.flux .failedToStart)
    | .ok (.obj fs) =>
      match pyOr (dictGet fs "id") (dictGet fs "finetune_id") with
      | some v =>
        if v.truthy then .ok (.obj (dictSet fs "id" v))
        else .error (.flux (.noFinetuneId (.obj fs)))
      | none => .error (.flux (.noFinetuneId (.obj fs)))
    | .ok other => .error (.flux (.invalidResponseType other))
  ([req], result)

/-- `FluxAPI.get_progress` (api.py lines 179-191): a single
`GET get_result` request, returned verbatim after the shared request
handling. -/
def get_progress (t : TransportResult) : Except PyErr JSON :=
  make_request t

/-- `FluxAPI.get_finetune_details` (api.py lines 202-232): a dict response
is returned as-is; a string response is converted into a synthesized dict
whose `status` is the string when non-empty and `Unknown` when empty; any
other decoded shape yields the `Invalid response format` placeholder
dict. -/
def get_finetune_details (t : TransportResult) : Except PyErr JSON :=
  match make_request t with
  | .error e => .error e
  | .ok (.obj fs) => .ok (.obj fs)
  | .ok (.str s) =>
    .ok (.obj [("finetune_comment", .str "N/A"),
               ("status", .str (if s = "" then "Unknown" else s)),
               ("created_at", .str "N/A")])
  | .ok _ =>
    .ok (.obj [("finetune_comment", .str "Error: Invalid response format"),
               ("status", .str "Unknown"),
               ("created_at", .str "N/A")])

/-- Transport environment for one `generate_image` call: the outcome of the
submission `POST`, and, for each `i`, the outcome of the `i`-th (0-based)
`GET get_result` poll issued by `get_progress`. -/
structure GenEnv where
  submit : TransportResult
  poll : Nat → TransportResult

instance {ε α : Type} [DecidableEq ε] [DecidableEq α] :
    DecidableEq (Except ε α) := fun a b =>
  match a, b with
  | .ok x, .ok y =>
    if h : x = y then .isTrue (by rw [h]) else .isFalse (by simp [h])
  | .error x, .error y =>
    if h : x = y then .isTrue (by rw [h]) else .isFalse (by simp [h])
  | .ok _, .error _ => .isFalse (fun h => Except.noConfusion h)
  | .error _, .ok _ => .isFalse (fun h => Except.noConfusion h)

/-- What one iteration of the polling loop decides: stop with an outcome,
or fall through to the next attempt. -/
inductive StepOutcome where
  | terminal (out : Except PyErr JSON) : StepOutcome
  | next : StepOutcome
deriving DecidableEq

/-- One iteration of the polling loop body (api.py lines 291-301): poll via
`get_progress`; on status `Ready` return `result["result"]` when
`"result" in result and "sample" in result["result"]` holds and raise
`Invalid result format` otherwise; on status `Failed` or `Error` raise the
generation failure carrying `result.get('error', 'Unknown error')`; on any
other status continue.  `.get` on a non-dict poll body raises
`AttributeError`, and the `in` test can raise `TypeError`; both escape as
non-`FluxAPIError` exceptions. -/
def pollStep (t : TransportResult) : StepOutcome :=
  match get_progress t with
  | .error e => .terminal (.error e)
  | .ok (.obj fs) =>
    if dictGet fs "status" = some (.str "Ready") then
      match dictGet fs "result" with
      | some inner =>
        match pyContains "sample" inner with
        | .ok true => .terminal (.ok inner)
        | .ok false =>
          .terminal (.error (.flux (.invalidResultFormat (.obj fs))))
        | .error _ => .terminal (.error .exc)
      | none => .terminal (.error (.flux (.invalidResultFormat (.obj fs))))
    else if dictGet fs "status" = some (.str "Failed") ∨
        dictGet fs "status" = some (.str "Error") then
      .terminal (.error (.flux (.generationFailed
        ((dictGet fs "error").getD (.str "Unknown error")))))
    else
      .next
  | .ok _ => .terminal (.error .exc)

/-- The `while attempt < max_attempts` loop of `generate_image`
(api.py lines 288-306), with `fuel = max_attempts - attempt` remaining
iterations.  Returns the loop's outcome (exhaustion raises the
`Image generation timed out` error), the number of `get_progress` calls
made, and the total units slept — the source executes `time.sleep(2)`
after every non-terminal poll, including the last one before exhaustion. -/
def pollLoop (env : GenEnv) (attempt : Nat) : Nat → Except PyErr JSON × Nat × Nat
  | 0 => (.error (.flux .timedOut), 0, 0)
  | fuel + 1 =>
    match pollStep (env.poll attempt) with
    | .terminal out => (out, 1, 0)
    | .next =>
      let r := pollLoop env (attempt + 1) fuel
      (r.1, r.2.1 + 1, r.2.2 + 2)

/-- The `except FluxAPIError: raise / except Exception: raise FluxAPIError`
pair at the end of `generate_image`: a non-`FluxAPIError` exception becomes
the `Failed to generate image` raise, everything else passes through. -/
def catchNonFlux : Except PyErr JSON → Except PyErr JSON
  | .error .exc => .error (.flux .failedToGenerate)
  | r => r

/-- `FluxAPI.generate_image` (api.py lines 248-312): submit the generation
`POST`; a falsy `response.get('id')` raises `No inference ID`; otherwise run
the 30-attempt polling loop.  Returns the outcome together with the number
of `get_progress` polls issued and the total units slept. -/
def generate_image (env : GenEnv) : Except PyErr JSON × Nat × Nat :=
  match make_request env.submit with
  | .error (.flux e) => (.error (.flux e), 0, 0)
  | .error .exc => (.error (.flux .failedToGenerate), 0, 0)
  | .ok (.obj fs) =>
    if optTruthy (dictGet fs "id") then
      let r := pollLoop env 0 30
      (catchNonFlux r.1, r.2.1, r.2.2)
    else
      (.error (.flux (.noInferenceId (.obj fs))), 0, 0)
  | .ok _ => (.error (.flux .failedToGenerate), 0, 0)

/-- A 200 response whose body decodes to the given JSON value.  The `text`
placeholder stands for the serialized body; only `decoded` is consumed once
it is non-empty. -/
def okResp (j : JSON) : TransportResult :=
  .resp ⟨200, "body", some j⟩

/-- A submission response carrying a job id. -/
def submitOkT : TransportResult :=
  okResp (.obj [("id", .str "job-1")])

/-- A poll response with status `Pending`. -/
def pendingT : TransportResult :=
  okResp (.obj [("status", .str "Pending")])

/-- A poll response with status `Ready` and a well-formed nested result. -/
def readyT : TransportResult :=
  okResp (.obj [("status", .str "Ready"),
                ("result", .obj [("sample", .str "https://img")])])

/-- Transport fixture: a finetune response carrying only `finetune_id`. -/
def ftOkT : TransportResult :=
  okResp (.obj [("finetune_id", .str "ft-1")])

/-- Transport fixture: a first poll reporting `Failed` with a detail. -/
def failedT : TransportResult :=
  okResp (.obj [("status", .str "Failed"), ("error", .str "boom")])

/-- Transport fixture: `Ready` whose nested result lacks a `sample`. -/
def readyNoSampleT : TransportResult :=
  okResp (.obj [("status", .str "Ready"),
                ("result", .obj [("other", .str "x")])])

/-- Argument fixture for the finetuning request. -/
def sampleArgs : FinetuneArgs :=
  ⟨"ZmlsZQ==", "my model", "TOK", "style", 300, 1 / 100000, true,
   "speed", "lora", 16⟩

theorem dictGet_dictSet_self (fs : List (String × JSON)) (k : String)
    (v : JSON) : dictGet (dictSet fs k v) k = some v := by
  induction fs with
  | nil => simp [dictGet, dictSet]
  | cons p rest ih =>
    obtain ⟨k2, w⟩ := p
    by_cases h : k2 = k <;> simp [dictGet, dictSet, h, ih]

theorem pyContains_of_dictGet_none (k : String) :
    ∀ efs : List (String × JSON), dictGet efs k = none →
      pyContains k (.obj efs) = .ok false
  | [], _ => by simp [pyContains]
  | (k2, v) :: rest, h => by
    have hk : k2 ≠ k := by
      intro he
      simp [dictGet, he] at h
    have hrest : dictGet rest k = none := by
      simpa [dictGet, hk] using h
    have ihr := pyContains_of_dictGet_none k rest hrest
    simp [pyContains] at ihr ⊢
    simp [hk]
    exact ihr

theorem pollStep_next (t : TransportResult) (fs : List (String × JSON))
    (h : make_request t = .ok (.obj fs))
    (h1 : dictGet fs "status" ≠ some (.str "Ready"))
    (h2 : dictGet fs "status" ≠ some (.str "Failed"))
    (h3 : dictGet fs "status" ≠ some (.str "Error")) :
    pollStep t = .next := by
  simp [pollStep, get_progress, h, h1, h2, h3]

theorem pollStep_ready (t : TransportResult) (fs : List (String × JSON))
    (inner : JSON) (h : make_request t = .ok (.obj fs))
    (hs : dictGet fs "status" = some (.str "Ready"))
    (hr : dictGet fs "result" = some inner)
    (hc : pyContains "sample" inner = .ok true) :
    pollStep t = .terminal (.ok inner) := by
  simp [pollStep, get_progress, h, hs, hr, hc]

theorem pollStep_ready_missing (t : TransportResult)
    (fs : List (String × JSON)) (h : make_request t = .ok (.obj fs))
    (hs : dictGet fs "status" = some (.str "Ready"))
    (hr : dictGet fs "result" = none) :
    pollStep t = .terminal (.error (.flux (.invalidResultFormat (.obj fs)))) := by
  simp [pollStep, get_progress, h, hs, hr]

theorem pollStep_ready_noSample (t : TransportResult)
    (fs efs : List (String × JSON)) (h : make_request t = .ok (.obj fs))
    (hs : dictGet fs "status" = some (.str "Ready"))
    (hr : dictGet fs "result" = some (.obj efs))
    (hns : dictGet efs "sample" = none) :
    pollStep t = .terminal (.error (.flux (.invalidResultFormat (.obj fs)))) := by
  simp [pollStep, get_progress, h, hs, hr,
    pyContains_of_dictGet_none "sample" efs hns]

theorem pollStep_failed (t : TransportResult) (fs : List (String × JSON))
    (hs : dictGet fs "status" = some (.str "Failed") ∨
      dictGet fs "status" = some (.str "Error"))
    (h : make_request t = .ok (.obj fs)) :
    pollStep t = .terminal (.error (.flux (.generationFailed
      ((dictGet fs "error").getD (.str "Unknown error"))))) := by
  have hne : (some (JSON.str "Failed")) ≠ some (JSON.str "Ready") := by decide
  have hne2 : (some (JSON.str "Error")) ≠ some (JSON.str "Ready") := by decide
  rcases hs with hs | hs <;> simp [pollStep, get_progress, h, hs, hne, hne2]

theorem pollLoop_succ_next (env : GenEnv) (a f : Nat)
    (h : pollStep (env.poll a) = .next) :
    pollLoop env a (f + 1) =
      ((pollLoop env (a + 1) f).1, (pollLoop env (a + 1) f).2.1 + 1,
       (pollLoop env (a + 1) f).2.2 + 2) := by
  simp [pollLoop, h]

theorem pollLoop_succ_terminal (env : GenEnv) (a f : Nat)
    (out : Except PyErr JSON) (h : pollStep (env.poll a) = .terminal out) :
    pollLoop env a (f + 1) = (out, 1, 0) := by
  simp [pollLoop, h]

theorem pollLoop_all_next (env : GenEnv)
    (hp : ∀ i, pollStep (env.poll i) = .next) :
    ∀ f a, pollLoop env a f = (.error (.flux .timedOut), f, 2 * f) := by
  intro f
  induction f with
  | zero => intro a; simp [pollLoop]
  | succ n ih =>
    intro a
    rw [pollLoop_succ_next env a n (hp a), ih (a + 1)]
    simp [Nat.mul_succ]

theorem pollLoop_polls_pos (env : GenEnv) (a f : Nat) (hf : 0 < f) :
    1 ≤ (pollLoop env a f).2.1 := by
  match f, hf with
  | f + 1, _ =>
    cases hstep : pollStep (env.poll a) with
    | terminal out => simp [pollLoop, hstep]
    | next => simp [pollLoop, hstep]

theorem generate_image_eq_poll (env : GenEnv) (fs0 : List (String × JSON))
    (hsub : make_request env.submit = .ok (.obj fs0))
    (hid : optTruthy (dictGet fs0 "id") = true) :
    generate_image env =
      (catchNonFlux (pollLoop env 0 30).1,
       (pollLoop env 0 30).2.1, (pollLoop env 0 30).2.2) := by
  simp [generate_image, hsub, hid]

/-- C1: for every status-polling behaviour of the remote service in which no
poll ever returns a terminal status (the decoded status is never `Ready`,
`Failed` or `Error`), `generate_image` performs exactly 30 polls of
`get_progress` — never a 31st — sleeps the fixed 2 time-units after each
poll (60 units in total), and then fails with the timeout error.  The loop
is a structurally bounded iteration on the fixed attempt cap, so it is a
total function: it always terminates. -/
theorem C1_generate_image_timeout (env : GenEnv) (fs0 : List (String × JSON))
    (hsub : make_request env.submit = .ok (.obj fs0))
    (hid : optTruthy (dictGet fs0 "id") = true)
    (hpoll : ∀ i, ∃ fs, make_request (env.poll i) = .ok (.obj fs) ∧
      dictGet fs "status" ≠ some (.str "Ready") ∧
      dictGet fs "status" ≠ some (.str "Failed") ∧
      dictGet fs "status" ≠ some (.str "Error")) :
    generate_image env = (.error (.flux .timedOut), 30, 60) := by
  have hstep : ∀ i, pollStep (env.poll i) = .next := by
    intro i
    obtain ⟨fs, h, h1, h2, h3⟩ := hpoll i
    exact pollStep_next _ fs h h1 h2 h3
  rw [generate_image_eq_poll env fs0 hsub hid, pollLoop_all_next env hstep 30 0]
  rfl

/-- Witness for C1: a mocked service that always reports `Pending`. -/
theorem C1_witness :
    generate_image ⟨submitOkT, fun _ => pendingT⟩ =
      (.error (.flux .timedOut), 30, 60) :=
  C1_generate_image_timeout _ [("id", .str "job-1")] rfl rfl
    (fun _ => ⟨[("status", .str "Pending")], rfl, by decide, by decide,
      by decide⟩)

/-- C2: if the submission POST returns a job id and the polled status
sequence is `Pending`, `Pending`, then `Ready` with a nested `result`
containing a `sample` reference, `generate_image` returns that nested
result after exactly 3 polls of `get_progress`. -/
theorem C2_generate_image_ready_after_three (env : GenEnv)
    (fs0 fs1 fs2 fs3 : List (String × JSON)) (inner : JSON)
    (hsub : make_request env.submit = .ok (.obj fs0))
    (hid : optTruthy (dictGet fs0 "id") = true)
    (h0 : make_request (env.poll 0) = .ok (.obj fs1))
    (h0s : dictGet fs1 "status" = some (.str "Pending"))
    (h1 : make_request (env.poll 1) = .ok (.obj fs2))
    (h1s : dictGet fs2 "status" = some (.str "Pending"))
    (h2 : make_request (env.poll 2) = .ok (.obj fs3))
    (h2s : dictGet fs3 "status" = some (.str "Ready"))
    (h2r : dictGet fs3 "result" = some inner)
    (h2c : pyContains "sample" inner = .ok true) :
    generate_image env = (.ok inner, 3, 4) := by
  have s0 : pollStep (env.poll 0) = .next :=
    pollStep_next _ fs1 h0 (by rw [h0s]; decide) (by rw [h0s]; decide)
      (by rw [h0s]; decide)
  have s1 : pollStep (env.poll 1) = .next :=
    pollStep_next _ fs2 h1 (by rw [h1s]; decide) (by rw [h1s]; decide)
      (by rw [h1s]; decide)
  have s2 : pollStep (env.poll 2) = .terminal (.ok inner) :=
    pollStep_ready _ fs3 inner h2 h2s h2r h2c
  have e2 : pollLoop env 2 28 = (.ok inner, 1, 0) :=
    pollLoop_succ_terminal env 2 27 _ s2
  have e1 : pollLoop env 1 29 = (.ok inner, 2, 2) := by
    have t := pollLoop_succ_next env 1 28 s1
    rw [t, e2]
  have e0 : pollLoop env 0 30 = (.ok inner, 3, 4) := by
    have t := pollLoop_succ_next env 0 29 s0
    rw [t, e1]
  rw [generate_image_eq_poll env fs0 hsub hid, e0]
  rfl

/-- Witness for C2: `Pending` twice, then `Ready` with a valid nested
image reference. -/
theorem C2_witness :
    generate_image ⟨submitOkT, fun i => if i < 2 then pendingT else readyT⟩ =
      (.ok (.obj [("sample", .str "https://img")]), 3, 4) :=
  C2_generate_image_ready_after_three _ [("id", .str "job-1")]
    [("status", .str "Pending")] [("status", .str "Pending")]
    [("status", .str "Ready"), ("result", .obj [("sample", .str "https://img")])]
    (.obj [("sample", .str "https://img")])
    rfl rfl rfl rfl rfl rfl rfl rfl rfl rfl

/-- C3: a poll whose status is `Ready` but whose nested image reference is
absent (no `result` entry, or a `result` object with no `sample` field)
makes `generate_image` fail with the `Invalid result format` error (the
spec's `InvalidResponse`) on that very poll — here on the first poll, with
exactly 1 poll issued — while a first poll with a not-yet-ready status
instead continues polling: at least a second poll is issued. -/
theorem C3_ready_malformed_vs_pending (env env2 : GenEnv)
    (fs0 fs gs0 gs : List (String × JSON))
    (hsub : make_request env.submit = .ok (.obj fs0))
    (hid : optTruthy (dictGet fs0 "id") = true)
    (h0 : make_request (env.poll 0) = .ok (.obj fs))
    (hs : dictGet fs "status" = some (.str "Ready"))
    (hmal : dictGet fs "result" = none ∨
      ∃ efs, dictGet fs "result" = some (.obj efs) ∧
        dictGet efs "sample" = none)
    (hsub2 : make_request env2.submit = .ok (.obj gs0))
    (hid2 : optTruthy (dictGet gs0 "id") = true)
    (g0 : make_request (env2.poll 0) = .ok (.obj gs))
    (g1 : dictGet gs "status" ≠ some (.str "Ready"))
    (g2 : dictGet gs "status" ≠ some (.str "Failed"))
    (g3 : dictGet gs "status" ≠ some (.str "Error")) :
    generate_image env =
      (.error (.flux (.invalidResultFormat (.obj fs))), 1, 0) ∧
    2 ≤ (generate_image env2).2.1 := by
  constructor
  · have hstep : pollStep (env.poll 0) =
        .terminal (.error (.flux (.invalidResultFormat (.obj fs)))) := by
      rcases hmal with hnone | ⟨efs, hsome, hns⟩
      · exact pollStep_ready_missing _ fs h0 hs hnone
      · exact pollStep_ready_noSample _ fs efs h0 hs hsome hns
    have e0 : pollLoop env 0 30 =
        (.error (.flux (.invalidResultFormat (.obj fs))), 1, 0) :=
      pollLoop_succ_terminal env 0 29 _ hstep
    rw [generate_image_eq_poll env fs0 hsub hid, e0]
    rfl
  · have hstep2 : pollStep (env2.poll 0) = .next :=
      pollStep_next _ gs g0 g1 g2 g3
    have t : pollLoop env2 0 30 =
        ((pollLoop env2 1 29).1, (pollLoop env2 1 29).2.1 + 1,
         (pollLoop env2 1 29).2.2 + 2) :=
      pollLoop_succ_next env2 0 29 hstep2
    rw [generate_image_eq_poll env2 gs0 hsub2 hid2, t]
    have hpos := pollLoop_polls_pos env2 1 29 (by norm_num)
    simpa using hpos

/-- Witness for C3: `Ready` with a sample-less nested result on one
service, `Pending` on the other. -/
theorem C3_witness :
    generate_image ⟨submitOkT, fun _ => readyNoSampleT⟩ =
      (.error (.flux (.invalidResultFormat
        (.obj [("status", .str "Ready"),
               ("result", .obj [("other", .str "x")])]))), 1, 0) ∧
    2 ≤ (generate_image ⟨submitOkT, fun _ => pendingT⟩).2.1 :=
  C3_ready_malformed_vs_pending _ _ [("id", .str "job-1")]
    [("status", .str "Ready"), ("result", .obj [("other", .str "x")])]
    [("id", .str "job-1")] [("status", .str "Pending")]
    rfl rfl rfl rfl
    (Or.inr ⟨[("other", .str "x")], rfl, rfl⟩)
    rfl rfl rfl (by decide) (by decide) (by decide)

/-- C4: if the first poll returns status `Failed` or `Error`,
`generate_image` fails immediately with the generation-failure error (the
spec's `GenerationFailed`) carrying `result.get('error', 'Unknown error')`
— the service-reported detail when present — and issues no further polls:
exactly 1 poll happens. -/
theorem C4_generate_image_failed (env : GenEnv)
    (fs0 fs : List (String × JSON))
    (hsub : make_request env.submit = .ok (.obj fs0))
    (hid : optTruthy (dictGet fs0 "id") = true)
    (h0 : make_request (env.poll 0) = .ok (.obj fs))
    (hs : dictGet fs "status" = some (.str "Failed") ∨
      dictGet fs "status" = some (.str "Error")) :
    generate_image env =
      (.error (.flux (.generationFailed
        ((dictGet fs "error").getD (.str "Unknown error")))), 1, 0) := by
  have hstep := pollStep_failed (env.poll 0) fs hs h0
  have e0 := pollLoop_succ_terminal env 0 29 _ hstep
  rw [generate_image_eq_poll env fs0 hsub hid, e0]
  rfl

/-- Witness for C4: `Failed` on the first poll, with a reported detail. -/
theorem C4_witness :
    generate_image ⟨submitOkT, fun _ => failedT⟩ =
      (.error (.flux (.generationFailed (.str "boom"))), 1, 0) :=
  C4_generate_image_failed _ [("id", .str "job-1")]
    [("status", .str "Failed"), ("error", .str "boom")]
    rfl rfl rfl (Or.inl rfl)

/-- C5: for every structured (object) response to the finetuning POST, if
`response.get('id') or response.get('finetune_id')` yields a (truthy) job
identifier, `request_finetuning` succeeds and returns the response with the
canonical `id` field holding that identifier; if neither field is present
it fails with the `No finetune ID` error, and if the decoded body is not an
object it fails with the `Invalid response type` error (both are the spec's
`InvalidResponse` family). -/
theorem C5_request_finetuning_id (a : FinetuneArgs) (t : TransportResult) :
    (∀ fs v, make_request t = .ok (.obj fs) →
      pyOr (dictGet fs "id") (dictGet fs "finetune_id") = some v →
      v.truthy = true →
      (request_finetuning a t).2 = .ok (.obj (dictSet fs "id" v)) ∧
      dictGet (dictSet fs "id" v) "id" = some v) ∧
    (∀ fs, make_request t = .ok (.obj fs) →
      dictGet fs "id" = none → dictGet fs "finetune_id" = none →
      (request_finetuning a t).2 = .error (.flux (.noFinetuneId (.obj fs)))) ∧
    (∀ j, make_request t = .ok j → j.isObj = false →
      (request_finetuning a t).2 =
        .error (.flux (.invalidResponseType j))) := by
  refine ⟨?_, ?_, ?_⟩
  · intro fs v h hor htr
    exact ⟨by simp [request_finetuning, h, hor, htr],
      dictGet_dictSet_self fs "id" v⟩
  · intro fs h h1 h2
    simp [request_finetuning, h, pyOr, h1, h2]
  · intro j h hobj
    cases j <;> simp_all [request_finetuning, JSON.isObj]

/-- Witness for C5: a response carrying only `finetune_id` is normalized
onto `id`; a response with neither field is rejected. -/
theorem C5_witness :
    (request_finetuning sampleArgs ftOkT).2 =
      .ok (.obj [("finetune_id", .str "ft-1"), ("id", .str "ft-1")]) ∧
    (request_finetuning sampleArgs (okResp (.obj [("x", .null)]))).2 =
      .error (.flux (.noFinetuneId (.obj [("x", .null)]))) := by
  constructor
  · have h := (C5_request_finetuning_id sampleArgs ftOkT).1
      [("finetune_id", .str "ft-1")] (.str "ft-1") rfl (by decide) (by decide)
    exact h.1
  · exact (C5_request_finetuning_id sampleArgs
      (okResp (.obj [("x", .null)]))).2.1 [("x", .null)] rfl (by decide)
      (by decide)

/-- C6: constructing the client with no credential argument and no
environment fallback fails at construction time with the configuration
error — `FluxAPI.init` is a pure check that issues no request — while a
non-empty credential from either source makes construction succeed. -/
theorem C6_init (s : String) (hs : s ≠ "") :
    FluxAPI.init none none = .configError ∧
    FluxAPI.init (some s) none = .ok s ∧
    FluxAPI.init none (some s) = .ok s := by
  refine ⟨rfl, ?_, ?_⟩ <;> simp [FluxAPI.init, hs]

/-- Witness for C6 at the concrete credential `k`. -/
theorem C6_witness :
    FluxAPI.init none none = .configError ∧
    FluxAPI.init (some "k") none = .ok "k" ∧
    FluxAPI.init none (some "k") = .ok "k" :=
  C6_init "k" (by decide)

/-- C7 counterexample: the claim says a bare-string response makes
`get_finetune_details` return a structure whose status is that raw string;
for the empty string the code instead substitutes `Unknown` (the source's
`response if response else "Unknown"`), so the returned status is not the
raw string. -/
theorem C7_counterexample :
    get_finetune_details (.resp ⟨200, "\"\"", some (.str "")⟩) =
      .ok (.obj [("finetune_comment", .str "N/A"),
                 ("status", .str "Unknown"),
                 ("created_at", .str "N/A")]) ∧
    JSON.str "Unknown" ≠ JSON.str "" := by
  decide

/-- C7 (amended): when the service responds to `get_finetune_details` with
a bare string, the operation does not propagate an error: it returns a
structured object whose `status` field is that raw string when the string
is non-empty and `Unknown` when it is empty, with the other fields set to
the `N/A` placeholders. -/
theorem C7_get_finetune_details_string (t : TransportResult) (s : String)
    (h : make_request t = .ok (.str s)) :
    get_finetune_details t =
      .ok (.obj [("finetune_comment", .str "N/A"),
                 ("status", .str (if s = "" then "Unknown" else s)),
                 ("created_at", .str "N/A")]) := by
  simp [get_finetune_details, h]

/-- Witness for C7 at a non-empty bare-string response. -/
theorem C7_witness :
    get_finetune_details (okResp (.str "Completed")) =
      .ok (.obj [("finetune_comment", .str "N/A"),
                 ("status", .str (if "Completed" = "" then "Unknown"
                   else "Completed")),
                 ("created_at", .str "N/A")]) :=
  C7_get_finetune_details_string (okResp (.str "Completed")) "Completed" rfl

/-- C8 counterexample: the claim says every non-2xx HTTP response produces
the `RequestFailed` family, but the code gates on `response.ok`, which is
true for every status below 400; a 304 response (non-2xx) with an empty
body is returned as a success — `make_request` yields the empty dict and
raises nothing. -/
theorem C8_counterexample :
    make_request (.resp ⟨304, "", none⟩) = .ok (.obj []) ∧
    ¬ (200 ≤ 304 ∧ 304 < 300) := by
  decide

/-- C8 (amended): a transport-level failure, a JSON parse failure on a
non-empty body, and a not-`ok` HTTP response (status at least 400, the
`requests` library's notion, wider than non-2xx) whose decoded body admits
the Python error-message extraction, each produce an error of the
`RequestFailed` family, carrying the raw response when available; in
particular an HTTP 500 whose JSON body holds an `error` object with a
`message` yields the `API error` raise carrying status 500 (the whole
response) and that extracted message. -/
theorem C8_make_request_requestFailed :
    (∀ e : RequestException,
      make_request (.exc e) = .error (.flux (.requestFailed e)) ∧
      isRequestFailed (.flux (.requestFailed e)) = true) ∧
    (∀ r : HTTPResponse, r.text ≠ "" → r.decoded = none →
      make_request (.resp r) = .error (.flux (.invalidJSON r)) ∧
      isRequestFailed (.flux (.invalidJSON r)) = true) ∧
    (∀ (r : HTTPResponse) (j m : JSON), r.ok = false →
      (if r.text = "" then some (JSON.obj []) else r.decoded) = some j →
      extractErrMsg j r.text = .ok m →
      make_request (.resp r) = .error (.flux (.apiError m r)) ∧
      isRequestFailed (.flux (.apiError m r)) = true) ∧
    (∀ (text : String) (fs efs : List (String × JSON)) (m : JSON),
      text ≠ "" → dictGet fs "error" = some (.obj efs) →
      dictGet efs "message" = some m →
      make_request (.resp ⟨500, text, some (.obj fs)⟩) =
        .error (.flux (.apiError m ⟨500, text, some (.obj fs)⟩))) := by
  refine ⟨fun e => ⟨rfl, rfl⟩, ?_, ?_, ?_⟩
  · intro r h1 h2
    exact ⟨by simp [make_request, h1, h2], rfl⟩
  · intro r j m hok hj hm
    exact ⟨by simp [make_request, hj, hok, hm], rfl⟩
  · intro text fs efs m htext herr hmsg
    simp [make_request, HTTPResponse.ok, extractErrMsg, htext, herr, hmsg]

/-- Witness for C8: an HTTP 500 with a JSON error body yields the
`API error` raise carrying the response (status 500) and the message
extracted from the body. -/
theorem C8_witness :
    make_request (.resp ⟨500, "body",
        some (.obj [("error", .obj [("message", .str "server err")])])⟩) =
      .error (.flux (.apiError (.str "server err")
        ⟨500, "body",
         some (.obj [("error", .obj [("message", .str "server err")])])⟩)) :=
  C8_make_request_requestFailed.2.2.2 "body"
    [("error", .obj [("message", .str "server err")])]
    [("message", .str "server err")] (.str "server err")
    (by decide) rfl rfl

/-- C9: for every valid combination of the enumerated parameters (`mode`,
`priority`, `finetune_type`, `lora_rank`) together with the other
arguments, `request_finetuning` issues the single `POST finetune` request
whose body is exactly the ten-field payload holding the supplied values
under their respective fields, and it succeeds whenever the service
returns an object with a truthy value under either recognized id field. -/
theorem C9_request_finetuning_payload (a : FinetuneArgs) (t : TransportResult)
    (hmode : a.mode = "character" ∨ a.mode = "product" ∨
      a.mode = "style" ∨ a.mode = "general")
    (hprio : a.priority = "speed" ∨ a.priority = "quality")
    (htype : a.finetune_type = "full" ∨ a.finetune_type = "lora")
    (hrank : a.lora_rank = 16 ∨ a.lora_rank = 32) :
    (request_finetuning a t).1 =
      [⟨"POST", "finetune", some (.obj (finetunePayloadFields a)), []⟩] ∧
    dictGet (finetunePayloadFields a) "mode" = some (.str a.mode) ∧
    dictGet (finetunePayloadFields a) "priority" = some (.str a.priority) ∧
    dictGet (finetunePayloadFields a) "finetune_type" =
      some (.str a.finetune_type) ∧
    dictGet (finetunePayloadFields a) "lora_rank" = some (.num a.lora_rank) ∧
    dictGet (finetunePayloadFields a) "finetune_comment" =
      some (.str a.finetune_comment) ∧
    dictGet (finetunePayloadFields a) "trigger_word" =
      some (.str a.trigger_word) ∧
    dictGet (finetunePayloadFields a) "file_data" = some (.str a.file_data) ∧
    dictGet (finetunePayloadFields a) "iterations" =
      some (.num a.iterations) ∧
    dictGet (finetunePayloadFields a) "learning_rate" =
      some (.num a.learning_rate) ∧
    dictGet (finetunePayloadFields a) "captioning" =
      some (.bool a.captioning) ∧
    (∀ fs v, make_request t = .ok (.obj fs) →
      pyOr (dictGet fs "id") (dictGet fs "finetune_id") = some v →
      v.truthy = true →
      ∃ fs2, (request_finetuning a t).2 = .ok (.obj fs2)) := by
  refine ⟨rfl, rfl, rfl, rfl, rfl, rfl, rfl, rfl, rfl, rfl, rfl, ?_⟩
  intro fs v h hor htr
  exact ⟨dictSet fs "id" v, by simp [request_finetuning, h, hor, htr]⟩

/-- Witness for C9 at a concrete valid argument combination and a service
answering with a `finetune_id`. -/
theorem C9_witness :
    (request_finetuning sampleArgs ftOkT).1 =
      [⟨"POST", "finetune", some (.obj (finetunePayloadFields sampleArgs)),
        []⟩] ∧
    dictGet (finetunePayloadFields sampleArgs) "mode" =
      some (.str "style") ∧
    ∃ fs2, (request_finetuning sampleArgs ftOkT).2 = .ok (.obj fs2) := by
  have h := C9_request_finetuning_payload sampleArgs ftOkT
    (by decide) (by decide) (by decide) (by decide)
  exact ⟨h.1, h.2.1, h.2.2.2.2.2.2.2.2.2.2.2 [("finetune_id", .str "ft-1")]
    (.str "ft-1") rfl (by decide) (by decide)⟩

/-- C10: `get_finetune_details` is total over every successfully decoded
response shape: a 2xx response whose decoded value is neither an object nor
a string (a list, a number, a boolean or null) does not raise; it returns
the placeholder structure with status `Unknown`. -/
theorem C10_get_finetune_details_total (t : TransportResult) (j : JSON)
    (h : make_request t = .ok j) (h1 : j.isObj = false)
    (h2 : j.isStr = false) :
    get_finetune_details t =
      .ok (.obj [("finetune_comment", .str "Error: Invalid response format"),
                 ("status", .str "Unknown"),
                 ("created_at", .str "N/A")]) := by
  cases j <;> simp_all [get_finetune_details, JSON.isObj, JSON.isStr]

/-- Witness for C10 at a decoded list response. -/
theorem C10_witness :
    get_finetune_details (okResp (.arr [.num 1])) =
      .ok (.obj [("finetune_comment", .str "Error: Invalid response format"),
                 ("status", .str "Unknown"),
                 ("created_at", .str "N/A")]) :=
  C10_get_finetune_details_total (okResp (.arr [.num 1])) (.arr [.num 1])
    rfl rfl rfl
